import Mathlib

/-!
Verification of the Paikin–Tal jigsaw-solver helper modules.

Shallow embedding of:
* `hammoudeh_puzzle_solver/puzzle_importer_tester.py` — the `PuzzleTester`
  static helpers `build_pixel_list`, `row_to_row_step_size`, `build_dummy_array`;
* `hammoudeh_puzzle_solver/solver_helper_classes.py` — the value classes
  `NextPieceToPlace`, `PuzzleLocation`, `NeighborSidePair`;
* the `Puzzle` constructor contract (its file `puzzle_importer.py` is not in
  the sources; it is modelled from the spec where needed).

Python strings are modelled as Lean `String`s; the builtin decimal `str` on an
integer is modelled by `pyStr`.  Stateful attribute access (`PuzzleLocation.key`
memoizes into `self._key`) is modelled by explicit state passing: the getter
returns the string together with the post-access object.
-/

namespace PuzzleTester

/-- `PuzzleTester.PIECE_WIDTH = 5`. -/
def PIECE_WIDTH : Nat := 5

/-- `PuzzleTester.NUMB_PUZZLE_PIECES = 9`. -/
def NUMB_PUZZLE_PIECES : Nat := 9

/-- `PuzzleTester.NUMB_PIXEL_DIMENSIONS = 3`. -/
def NUMB_PIXEL_DIMENSIONS : Nat := 3

/-- `PuzzleTester.TEST_ARRAY_FIRST_PIXEL_VALUE = 0`. -/
def TEST_ARRAY_FIRST_PIXEL_VALUE : Nat := 0

/-- `PuzzleTester.row_to_row_step_size`:
`int(NUMB_PIXEL_DIMENSIONS * PIECE_WIDTH * math.sqrt(NUMB_PUZZLE_PIECES))`.
`math.sqrt(9) = 3.0` exactly, so the float product is `45.0` and the `int`
truncation gives `45`; `Nat.sqrt 9 = 3` renders the same value. -/
def row_to_row_step_size : Nat :=
  NUMB_PIXEL_DIMENSIONS * PIECE_WIDTH * Nat.sqrt NUMB_PUZZLE_PIECES

/-- `PuzzleTester.build_pixel_list(start_value, is_row, reverse_list=False)`:
builds a `PIECE_WIDTH × NUMB_PIXEL_DIMENSIONS` array with
`pixels[i, j] = start_value + i * pixel_offset + j`, where the offset is
`NUMB_PIXEL_DIMENSIONS` for a row and `row_to_row_step_size()` for a column;
`pixels[::-1]` (reversal along the first axis) is applied when
`reverse_list` is true.  The array is modelled as a list of rows. -/
def build_pixel_list (start_value : Int) (is_row : Bool)
    (reverse_list : Bool := false) : List (List Int) :=
  let pixel_offset : Int :=
    if is_row then (NUMB_PIXEL_DIMENSIONS : Int) else (row_to_row_step_size : Int)
  let pixels : List (List Int) :=
    (List.range PIECE_WIDTH).map (fun i =>
      (List.range NUMB_PIXEL_DIMENSIONS).map (fun j =>
        (start_value + (i : Int) * pixel_offset) + (j : Int)))
  if reverse_list then pixels.reverse else pixels

/-- `PuzzleTester.build_dummy_array`: a square image of side
`PIECE_WIDTH * math.sqrt(NUMB_PUZZLE_PIECES)` with `NUMB_PIXEL_DIMENSIONS`
channels, filled by the triple loop `for row: for col: for dim:` writing a
counter `val` that starts at `TEST_ARRAY_FIRST_PIXEL_VALUE` and is incremented
by one after every write.  The counter-passing folds mirror the loop. -/
def build_dummy_array : List (List (List Nat)) :=
  let side : Nat := PIECE_WIDTH * Nat.sqrt NUMB_PUZZLE_PIECES
  let result :=
    (List.range side).foldl
      (fun (st : List (List (List Nat)) × Nat) _row =>
        let rowResult :=
          (List.range side).foldl
            (fun (st2 : List (List Nat) × Nat) _col =>
              let pixResult :=
                (List.range NUMB_PIXEL_DIMENSIONS).foldl
                  (fun (st3 : List Nat × Nat) _dim =>
                    (st3.1 ++ [st3.2], st3.2 + 1))
                  ([], st2.2)
              (st2.1 ++ [pixResult.1], pixResult.2))
            ([], st.2)
        (st.1 ++ [rowResult.1], rowResult.2))
      ([], TEST_ARRAY_FIRST_PIXEL_VALUE)
  result.1

end PuzzleTester

/-- Models Python's builtin decimal `str` on a natural number: the list of
decimal digit characters, most significant first, no leading zeros. -/
def natDigits (n : Nat) : List Char :=
  if _h : n < 10 then [Char.ofNat (48 + n)]
  else natDigits (n / 10) ++ [Char.ofNat (48 + n % 10)]
decreasing_by exact Nat.div_lt_self (by omega) (by omega)

/-- Models Python's builtin `str` on an arbitrary integer: a minus sign
followed by the decimal digits of the absolute value when negative, the
decimal digits otherwise. -/
def pyStr (i : Int) : String :=
  if i < 0 then "-" ++ ⟨natDigits i.natAbs⟩ else ⟨natDigits i.natAbs⟩

/-- `NextPieceToPlace` from `solver_helper_classes.py`.  The location, side and
score values are opaque to the constructor, so they are type parameters. -/
structure NextPieceToPlace (Loc Side Score : Type) where
  puzzle_id : Nat
  open_slot_location : Loc
  next_piece_id : Nat
  next_piece_side : Side
  neighbor_piece_id : Nat
  neighbor_piece_side : Side
  mutual_compatibility : Score
  is_best_buddy : Bool
  _numb_avg_placed_unplaced_links : Nat
  _total_placed_unplaced_compatibility_diff : Int

/-- `NextPieceToPlace.__init__`: stores the eight arguments in the
corresponding attributes and sets both board-spawn bookkeeping counters
(`_numb_avg_placed_unplaced_links`,
`_total_placed_unplaced_compatibility_diff`) to `0`. -/
def NextPieceToPlace.init {Loc Side Score : Type}
    (puzzle_id : Nat) (open_slot_location : Loc)
    (next_piece_id : Nat) (next_piece_side : Side)
    (neighbor_piece_id : Nat) (neighbor_piece_side : Side)
    (compatibility : Score) (is_best_buddy : Bool) :
    NextPieceToPlace Loc Side Score :=
  { puzzle_id := puzzle_id
    open_slot_location := open_slot_location
    next_piece_id := next_piece_id
    next_piece_side := next_piece_side
    neighbor_piece_id := neighbor_piece_id
    neighbor_piece_side := neighbor_piece_side
    mutual_compatibility := compatibility
    is_best_buddy := is_best_buddy
    _numb_avg_placed_unplaced_links := 0
    _total_placed_unplaced_compatibility_diff := 0 }

/-- `PuzzleLocation` from `solver_helper_classes.py`: the mutable attributes
`puzzle_id`, `row`, `column` and the memoization slot `_key`. -/
structure PuzzleLocation where
  puzzle_id : Int
  row : Int
  column : Int
  _key : Option String

/-- `PuzzleLocation.__init__(puzzle_id, row, column)`: stores the triple and
sets `_key = None`. -/
def PuzzleLocation.init (puzzle_id row column : Int) : PuzzleLocation :=
  { puzzle_id := puzzle_id, row := row, column := column, _key := none }

/-- The string `str(puzzle_id) + "_" + str(row) + "_" + str(column)` computed
inside the `key` property. -/
def PuzzleLocation.keyString (pl : PuzzleLocation) : String :=
  pyStr pl.puzzle_id ++ "_" ++ pyStr pl.row ++ "_" ++ pyStr pl.column

/-- The `key` property: if `_key is None` it is filled with
`str(puzzle_id) + "_" + str(row) + "_" + str(column)`; the stored `_key` is
returned.  Modelled state-passing: returns the string and the post-access
object. -/
def PuzzleLocation.key (pl : PuzzleLocation) : String × PuzzleLocation :=
  match pl._key with
  | none =>
    let k := pl.keyString
    (k, { pl with _key := some k })
  | some k => (k, pl)

/-- The `location` property: the tuple `(self.row, self.column)`, recomputed
from the current attributes on every access. -/
def PuzzleLocation.location (pl : PuzzleLocation) : Int × Int :=
  (pl.row, pl.column)

/-- A `PuzzleLocation` instance together with its allocation identity.
The class defines no `__eq__`, so Python `==` between two instances falls
back to `object.__eq__`, which compares object identity. -/
structure PuzzleLocationObject where
  addr : Nat
  state : PuzzleLocation

/-- Python `==` on two `PuzzleLocation` instances: identity comparison,
since the class inherits `object.__eq__`. -/
def pyEq (a b : PuzzleLocationObject) : Bool :=
  a.addr == b.addr

/-- `NeighborSidePair` from `solver_helper_classes.py`. -/
structure NeighborSidePair (Side : Type) where
  _neighbor_id : Nat
  _neighbor_side : Side

/-- `NeighborSidePair.__init__(neighbor_piece_id, neighbor_side)`. -/
def NeighborSidePair.init {Side : Type} (neighbor_piece_id : Nat)
    (neighbor_side : Side) : NeighborSidePair Side :=
  { _neighbor_id := neighbor_piece_id, _neighbor_side := neighbor_side }

/-- The `id_number` property: returns `self._neighbor_id`. -/
def NeighborSidePair.id_number {Side : Type} (p : NeighborSidePair Side) : Nat :=
  p._neighbor_id

/-- The `side` property: returns `self._neighbor_side`. -/
def NeighborSidePair.side {Side : Type} (p : NeighborSidePair Side) : Side :=
  p._neighbor_side

/-- Modelled from the spec: `ConfigurationError` raised by the `Puzzle`
constructor (`puzzle_importer.py` is not among the sources). -/
inductive ConfigurationError where
  | nonDivisibleImage
deriving DecidableEq

/-- Modelled from the spec: the `Puzzle` constructor of `puzzle_importer.py`
(not among the sources).  Grid size is `(height / pieceWidth,
width / pieceWidth)`, both divisions required exact — a non-integer division
is a `ConfigurationError` raised before any piece is created; otherwise the
pieces are produced in row-major grid order, one per grid cell. -/
def Puzzle.construct (img_height img_width piece_width : Nat) :
    Except ConfigurationError ((Nat × Nat) × List (Nat × Nat)) :=
  if img_height % piece_width = 0 ∧ img_width % piece_width = 0 then
    let grid_size := (img_height / piece_width, img_width / piece_width)
    let pieces :=
      (List.range grid_size.1).flatMap
        (fun r => (List.range grid_size.2).map (fun c => (r, c)))
    Except.ok (grid_size, pieces)
  else
    Except.error ConfigurationError.nonDivisibleImage

/-! ## Helper lemmas -/

theorem digitChar_toNat {d : Nat} (h : d < 10) :
    (Char.ofNat (48 + d)).toNat = 48 + d := by
  revert d h
  decide

theorem digitChar_ne_underscore {d : Nat} (h : d < 10) :
    Char.ofNat (48 + d) ≠ '_' := by
  revert d h
  decide

theorem digitChar_ne_minus {d : Nat} (h : d < 10) :
    Char.ofNat (48 + d) ≠ '-' := by
  revert d h
  decide

theorem natDigits_foldl (n : Nat) :
    (natDigits n).foldl (fun a c => 10 * a + (c.toNat - 48)) 0 = n := by
  induction n using natDigits.induct with
  | case1 n h =>
    rw [natDigits]
    simp only [h, dite_true, List.foldl_cons, List.foldl_nil]
    rw [digitChar_toNat h]
    omega
  | case2 n h ih =>
    rw [natDigits]
    simp only [h, dite_false, List.foldl_append, List.foldl_cons, List.foldl_nil]
    rw [ih, digitChar_toNat (Nat.mod_lt _ (by omega))]
    omega

theorem natDigits_inj {m n : Nat} (h : natDigits m = natDigits n) : m = n := by
  rw [← natDigits_foldl m, h, natDigits_foldl]

theorem underscore_not_mem_natDigits (n : Nat) : '_' ∉ natDigits n := by
  induction n using natDigits.induct with
  | case1 n h =>
    rw [natDigits]
    simp only [h, dite_true, List.mem_singleton]
    exact fun contra => digitChar_ne_underscore h contra.symm
  | case2 n h ih =>
    rw [natDigits]
    simp only [h, dite_false, List.mem_append, List.mem_singleton]
    rintro (hc | hc)
    · exact ih hc
    · exact digitChar_ne_underscore (Nat.mod_lt _ (by omega)) hc.symm

theorem minus_not_mem_natDigits (n : Nat) : '-' ∉ natDigits n := by
  induction n using natDigits.induct with
  | case1 n h =>
    rw [natDigits]
    simp only [h, dite_true, List.mem_singleton]
    exact fun contra => digitChar_ne_minus h contra.symm
  | case2 n h ih =>
    rw [natDigits]
    simp only [h, dite_false, List.mem_append, List.mem_singleton]
    rintro (hc | hc)
    · exact ih hc
    · exact digitChar_ne_minus (Nat.mod_lt _ (by omega)) hc.symm

theorem underscore_not_mem_pyStr (i : Int) : '_' ∉ (pyStr i).data := by
  unfold pyStr
  by_cases h : i < 0
  · simp only [h, if_true]
    intro hmem
    rcases List.mem_append.mp hmem with hc | hc
    · simp at hc
    · exact underscore_not_mem_natDigits _ hc
  · simp only [h, if_false]
    exact underscore_not_mem_natDigits _

theorem pyStr_inj {i j : Int} (h : pyStr i = pyStr j) : i = j := by
  unfold pyStr at h
  have hdata := congrArg String.data h
  by_cases hi : i < 0 <;> by_cases hj : j < 0 <;>
    simp only [hi, hj, if_true, if_false, String.data_append] at hdata
  · have : i.natAbs = j.natAbs := natDigits_inj (by simpa using hdata)
    omega
  · exfalso
    have : '-' ∈ natDigits j.natAbs := by
      have : natDigits j.natAbs = '-' :: natDigits i.natAbs := by
        simpa using hdata.symm
      rw [this]; exact List.mem_cons_self _ _
    exact minus_not_mem_natDigits _ this
  · exfalso
    have : '-' ∈ natDigits i.natAbs := by
      have : natDigits i.natAbs = '-' :: natDigits j.natAbs := by
        simpa using hdata
      rw [this]; exact List.mem_cons_self _ _
    exact minus_not_mem_natDigits _ this
  · have : i.natAbs = j.natAbs := natDigits_inj hdata
    omega

theorem append_sep_inj :
    ∀ (xs xs' ys ys' : List Char), '_' ∉ xs → '_' ∉ xs' →
      xs ++ '_' :: ys = xs' ++ '_' :: ys' → xs = xs' ∧ ys = ys'
  | [], [], _, _, _, _, h => by simpa using h
  | [], c' :: t', _, _, _, hx', h => by
    exfalso
    apply hx'
    have : '_' = c' := by simpa using (congrArg (fun l => l.head?) h)
    rw [← this]
    exact List.mem_cons_self _ _
  | c :: t, [], _, _, hx, _, h => by
    exfalso
    apply hx
    have : c = '_' := by simpa using (congrArg (fun l => l.head?) h)
    rw [this]
    exact List.mem_cons_self _ _
  | c :: t, c' :: t', ys, ys', hx, hx', h => by
    simp only [List.cons_append, List.cons.injEq] at h
    have ht := append_sep_inj t t' ys ys'
      (fun hm => hx (List.mem_cons_of_mem _ hm))
      (fun hm => hx' (List.mem_cons_of_mem _ hm)) h.2
    exact ⟨by rw [h.1, ht.1], ht.2⟩

theorem keyString_eq_iff (pl pl' : PuzzleLocation) :
    pl.keyString = pl'.keyString ↔
      (pl.puzzle_id = pl'.puzzle_id ∧ pl.row = pl'.row ∧ pl.column = pl'.column) := by
  constructor
  · intro h
    have hdata := congrArg String.data h
    simp only [PuzzleLocation.keyString, String.data_append, List.append_assoc,
      List.cons_append, List.nil_append] at hdata
    have h1 := append_sep_inj _ _ _ _
      (underscore_not_mem_pyStr pl.puzzle_id)
      (underscore_not_mem_pyStr pl'.puzzle_id) hdata
    have h2 := append_sep_inj _ _ _ _
      (underscore_not_mem_pyStr pl.row)
      (underscore_not_mem_pyStr pl'.row) h1.2
    refine ⟨pyStr_inj (String.ext h1.1), pyStr_inj (String.ext h2.1),
      pyStr_inj (String.ext h2.2)⟩
  · intro h
    simp only [PuzzleLocation.keyString, h.1, h.2.1, h.2.2]

/-! ## Claim theorems -/

/-- C1: for every `start_value` and every `is_row` flag,
`build_pixel_list(start_value, is_row, reverse_list=True)` returns exactly the
reverse of the sequence returned by
`build_pixel_list(start_value, is_row, reverse_list=False)`. -/
theorem build_pixel_list_reverse (start_value : Int) (is_row : Bool) :
    PuzzleTester.build_pixel_list start_value is_row true
      = (PuzzleTester.build_pixel_list start_value is_row false).reverse := by
  simp [PuzzleTester.build_pixel_list]

set_option maxRecDepth 100000 in
/-- C2: `build_dummy_array` returns a 15×15×3 array whose entries are strictly
monotonically increasing in row-major traversal starting at
`TEST_ARRAY_FIRST_PIXEL_VALUE = 0` — the row-major flattening is exactly
`0, 1, …, 674` — and every entry at `(row, col, dim)` equals
`row*45 + col*3 + dim`, so consecutive row-major entries differ by one. -/
theorem build_dummy_array_spec :
    (PuzzleTester.build_dummy_array.map (fun r => r.map List.length)
        = List.replicate 15 (List.replicate 15 3))
    ∧ PuzzleTester.build_dummy_array.flatten.flatten = List.range 675
    ∧ ((List.range 15).all fun row => (List.range 15).all fun col =>
        (List.range 3).all fun dim =>
          ((PuzzleTester.build_dummy_array.getD row []).getD col []).getD dim 0
            == row * 45 + col * 3 + dim) = true := by
  have h3 : Nat.sqrt PuzzleTester.NUMB_PUZZLE_PIECES = 3 := Nat.sqrt_eq 3
  have hside : PuzzleTester.PIECE_WIDTH * Nat.sqrt PuzzleTester.NUMB_PUZZLE_PIECES = 15 := by
    rw [h3]
    decide
  simp only [PuzzleTester.build_dummy_array, hside]
  decide

/-- C3: the `key` of a `PuzzleLocation` is a stable identifier of the
`(puzzle_id, row, column)` triple: the key strings of two constructed
locations are equal exactly when the triples are equal, and a repeated access
of `key` on the unmodified object returns the same string. -/
theorem puzzleLocation_key_spec (p r c q s d : Int) :
    ((PuzzleLocation.init p r c).key.1 = (PuzzleLocation.init q s d).key.1
      ↔ (p = q ∧ r = s ∧ c = d))
    ∧ (∀ pl : PuzzleLocation, (pl.key.2).key.1 = pl.key.1) := by
  constructor
  · simpa [PuzzleLocation.key, PuzzleLocation.init] using
      keyString_eq_iff (PuzzleLocation.init p r c) (PuzzleLocation.init q s d)
  · intro pl
    cases h : pl._key <;> simp [PuzzleLocation.key, h]

/-- C4 counterexample: two `PuzzleLocation` instances constructed with the same
`(puzzle_id, row, column)` triple but distinct identities do **not** compare
equal under Python `==` (the class defines no `__eq__`, so `==` is object
identity). -/
theorem puzzleLocation_eq_counterexample :
    (PuzzleLocationObject.mk 0 (PuzzleLocation.init 1 2 3)).state
        = (PuzzleLocationObject.mk 1 (PuzzleLocation.init 1 2 3)).state
    ∧ pyEq (PuzzleLocationObject.mk 0 (PuzzleLocation.init 1 2 3))
        (PuzzleLocationObject.mk 1 (PuzzleLocation.init 1 2 3)) = false :=
  ⟨rfl, rfl⟩

/-- C4 (amended): `==` between two `PuzzleLocation` instances is object
identity — equal exactly when the two are the same object — while value-level
identification is provided by the key: two instances whose
`(puzzle_id, row, column)` triples agree have equal key strings. -/
theorem puzzleLocation_eq_amended (a b : PuzzleLocationObject) :
    (pyEq a b = true ↔ a.addr = b.addr)
    ∧ (a.state.puzzle_id = b.state.puzzle_id → a.state.row = b.state.row →
        a.state.column = b.state.column → a.state.keyString = b.state.keyString) := by
  constructor
  · simp [pyEq]
  · intro h1 h2 h3
    exact (keyString_eq_iff a.state b.state).mpr ⟨h1, h2, h3⟩

/-- C4 witness: the amended claim instantiated at two concrete objects that
share identity `7` and the triple `(1, 2, 3)`. -/
theorem puzzleLocation_eq_amended_witness :
    (pyEq (PuzzleLocationObject.mk 7 (PuzzleLocation.init 1 2 3))
        (PuzzleLocationObject.mk 7 (PuzzleLocation.init 1 2 3)) = true)
    ∧ (PuzzleLocation.init 1 2 3).keyString = (PuzzleLocation.init 1 2 3).keyString :=
  ⟨(puzzleLocation_eq_amended ⟨7, PuzzleLocation.init 1 2 3⟩
      ⟨7, PuzzleLocation.init 1 2 3⟩).1.mpr rfl,
   (puzzleLocation_eq_amended ⟨7, PuzzleLocation.init 1 2 3⟩
      ⟨7, PuzzleLocation.init 1 2 3⟩).2 rfl rfl rfl⟩

/-- C5: the `NextPieceToPlace` constructor stores the eight given values
unchanged in the corresponding attributes and initializes both running
aggregates for the board-abandon decision to zero. -/
theorem nextPieceToPlace_init_spec {Loc Side Score : Type}
    (puzzle_id : Nat) (open_slot_location : Loc) (next_piece_id : Nat)
    (next_piece_side : Side) (neighbor_piece_id : Nat) (neighbor_piece_side : Side)
    (compatibility : Score) (is_best_buddy : Bool) :
    (NextPieceToPlace.init puzzle_id open_slot_location next_piece_id next_piece_side
        neighbor_piece_id neighbor_piece_side compatibility is_best_buddy).puzzle_id
        = puzzle_id
    ∧ (NextPieceToPlace.init puzzle_id open_slot_location next_piece_id next_piece_side
        neighbor_piece_id neighbor_piece_side compatibility is_best_buddy).open_slot_location
        = open_slot_location
    ∧ (NextPieceToPlace.init puzzle_id open_slot_location next_piece_id next_piece_side
        neighbor_piece_id neighbor_piece_side compatibility is_best_buddy).next_piece_id
        = next_piece_id
    ∧ (NextPieceToPlace.init puzzle_id open_slot_location next_piece_id next_piece_side
        neighbor_piece_id neighbor_piece_side compatibility is_best_buddy).next_piece_side
        = next_piece_side
    ∧ (NextPieceToPlace.init puzzle_id open_slot_location next_piece_id next_piece_side
        neighbor_piece_id neighbor_piece_side compatibility is_best_buddy).neighbor_piece_id
        = neighbor_piece_id
    ∧ (NextPieceToPlace.init puzzle_id open_slot_location next_piece_id next_piece_side
        neighbor_piece_id neighbor_piece_side compatibility is_best_buddy).neighbor_piece_side
        = neighbor_piece_side
    ∧ (NextPieceToPlace.init puzzle_id open_slot_location next_piece_id next_piece_side
        neighbor_piece_id neighbor_piece_side compatibility is_best_buddy).mutual_compatibility
        = compatibility
    ∧ (NextPieceToPlace.init puzzle_id open_slot_location next_piece_id next_piece_side
        neighbor_piece_id neighbor_piece_side compatibility is_best_buddy).is_best_buddy
        = is_best_buddy
    ∧ (NextPieceToPlace.init puzzle_id open_slot_location next_piece_id next_piece_side
        neighbor_piece_id neighbor_piece_side compatibility
        is_best_buddy)._numb_avg_placed_unplaced_links = 0
    ∧ (NextPieceToPlace.init puzzle_id open_slot_location next_piece_id next_piece_side
        neighbor_piece_id neighbor_piece_side compatibility
        is_best_buddy)._total_placed_unplaced_compatibility_diff = 0 :=
  ⟨rfl, rfl, rfl, rfl, rfl, rfl, rfl, rfl, rfl, rfl⟩

/-- C6: puzzle construction computes the grid size as exactly
`(image height / piece width, image width / piece width)`, the number of
created pieces equals the product of the two grid dimensions, and an image
whose width or height is not evenly divisible by the configured piece width
raises `ConfigurationError` before any piece is created. -/
theorem puzzle_construct_spec (img_height img_width piece_width : Nat) :
    (img_height % piece_width = 0 ∧ img_width % piece_width = 0 →
      ∃ pieces, Puzzle.construct img_height img_width piece_width
          = Except.ok ((img_height / piece_width, img_width / piece_width), pieces)
        ∧ pieces.length = (img_height / piece_width) * (img_width / piece_width))
    ∧ (¬ (img_height % piece_width = 0 ∧ img_width % piece_width = 0) →
      Puzzle.construct img_height img_width piece_width
        = Except.error ConfigurationError.nonDivisibleImage) := by
  constructor
  · intro h
    simp only [Puzzle.construct]
    rw [if_pos h]
    refine ⟨_, rfl, ?_⟩
    simp [List.length_flatMap, Function.comp_def, List.map_const',
      List.sum_replicate, smul_eq_mul]
  · intro h
    simp only [Puzzle.construct]
    rw [if_neg h]

/-- C6 witness: a 200×300 image with piece width 5 yields grid `(40, 60)` with
`40 * 60` pieces, and a 7×7 image with piece width 5 is a configuration
error. -/
theorem puzzle_construct_spec_witness :
    (∃ pieces, Puzzle.construct 200 300 5 = Except.ok ((40, 60), pieces)
      ∧ pieces.length = 40 * 60)
    ∧ Puzzle.construct 7 7 5 = Except.error ConfigurationError.nonDivisibleImage := by
  constructor
  · obtain ⟨pieces, h1, h2⟩ := (puzzle_construct_spec 200 300 5).1 (by decide)
    exact ⟨pieces, by simpa using h1, by simpa using h2⟩
  · exact (puzzle_construct_spec 7 7 5).2 (by decide)

/-- C7: for every `start_value`, `is_row` flag and `reverse_list` flag,
`build_pixel_list` returns an array of shape
`(PIECE_WIDTH, NUMB_PIXEL_DIMENSIONS) = (5, 3)`: five border pixels, each a
three-channel color vector. -/
theorem build_pixel_list_shape (start_value : Int) (is_row reverse_list : Bool) :
    (PuzzleTester.build_pixel_list start_value is_row reverse_list).length = 5
    ∧ (PuzzleTester.build_pixel_list start_value is_row reverse_list).map List.length
        = List.replicate 5 3 := by
  cases reverse_list <;>
    simp [PuzzleTester.build_pixel_list, PuzzleTester.PIECE_WIDTH,
      PuzzleTester.NUMB_PIXEL_DIMENSIONS, List.map_map, Function.comp_def,
      List.map_const', List.length_map, List.length_range, List.reverse_replicate]

/-- C8: `PuzzleLocation.key` is memoized — after the first access the cache
`_key` holds the returned string, a later access returns the identical string
even if `puzzle_id`, `row` or `column` are mutated in between, and no access
ever replaces a non-`None` cache. -/
theorem puzzleLocation_key_memoized (pl : PuzzleLocation) (p r c : Int) :
    (pl.key.2)._key = some pl.key.1
    ∧ ({ pl.key.2 with puzzle_id := p, row := r, column := c } : PuzzleLocation).key.1
        = pl.key.1
    ∧ ({ pl.key.2 with puzzle_id := p, row := r, column := c } : PuzzleLocation).key.2._key
        = some pl.key.1 := by
  cases h : pl._key <;> simp [PuzzleLocation.key, h]

/-- C9: `NeighborSidePair` round-trips its constructor arguments — `id_number`
and `side` return exactly the neighbor piece id and side it was built from. -/
theorem neighborSidePair_spec {Side : Type} (neighbor_piece_id : Nat)
    (neighbor_side : Side) :
    (NeighborSidePair.init neighbor_piece_id neighbor_side).id_number
        = neighbor_piece_id
    ∧ (NeighborSidePair.init neighbor_piece_id neighbor_side).side = neighbor_side :=
  ⟨rfl, rfl⟩

/-- C10: `PuzzleLocation.location` always returns the tuple `(row, column)` of
the current field values — it is not cached, so after mutating `row` or
`column` it reflects the new values, and it omits `puzzle_id`. -/
theorem puzzleLocation_location_spec (pl : PuzzleLocation) (r c : Int) :
    pl.location = (pl.row, pl.column)
    ∧ ({ pl with row := r, column := c } : PuzzleLocation).location = (r, c) :=
  ⟨rfl, rfl⟩
